import Mathlib

/-!
Verification of the Impact & Alert Decision Engine of the Nigeria IBF system.

This file gives a shallow embedding, over `ℚ`, of the core functions of
`advanced_multi_hazard.py` and `production_forecast_engine.py`:
vulnerability fallback, adaptive impact-curve construction, multi-hazard
combination, input validation, and alert-level decision logic.  Machine
floats are modelled as exact rationals; the real exponential is modelled
as an abstract function carrying the properties of `exp` that the code's
behaviour depends on (see `ExpLike`).
-/

namespace NigeriaIBF

/-- Context information for a hazard event (dataclass `HazardContext`). -/
structure HazardContext where
  state : String
  region : String
  month : ℕ
  population_density : ℚ
  poverty_rate : ℚ
  previous_events_30d : ℕ
  previous_events_90d : ℕ
  distance_to_water_km : ℚ
  elevation_m : ℚ
  urban_rural : String
  infrastructure_quality : ℚ
  early_warning_coverage : ℚ

/-- A concrete context used in tests and witnesses: the `Benue` example from
the source's `__main__` block (infrastructure 0.35, poverty 0.45,
early-warning 0.55, rural). -/
def ctx0 : HazardContext :=
  { state := "Benue", region := "North_Central", month := 9
    population_density := 150, poverty_rate := 9/20
    previous_events_30d := 2, previous_events_90d := 5
    distance_to_water_km := 5/2, elevation_m := 120
    urban_rural := "rural", infrastructure_quality := 7/20
    early_warning_coverage := 11/20 }

/-- Embedding of `AdaptiveImpactFunction._adjust_for_context`: multiplies the
half-impact vulnerability parameter by context-dependent factors. -/
def adjust_for_context (intensity_half : ℚ) (context : HazardContext) : ℚ :=
  let a1 : ℚ :=
    if context.infrastructure_quality < 3/10 then 17/20
    else if 7/10 < context.infrastructure_quality then 23/20 else 1
  let a2 : ℚ :=
    if 7/10 < context.early_warning_coverage then 5/4
    else if context.early_warning_coverage < 3/10 then 9/10 else 1
  let a3 : ℚ :=
    if context.urban_rural = "urban" then 11/10
    else if context.urban_rural = "rural" then 19/20 else 1
  let a4 : ℚ := if 1/2 < context.poverty_rate then 17/20 else 1
  intensity_half * (1 * a1 * a2 * a3 * a4)

/-- Modelled from the spec: the regional flood vulnerability lookup table
`config.vulnerability.flood_params` (median `p50` values, metres) is part of
the configuration object, which is not present under `src/`.  The spec fixes
only its shape: keyed by the six regions, a `North_Central` entry used as the
default for unknown regions, and median values inside the valid flood range
[0.05, 2.0].  Concrete entries are representative values satisfying that. -/
def flood_p50 (region : String) : ℚ :=
  if region = "North_West" then 4/5
  else if region = "North_East" then 7/10
  else if region = "North_Central" then 9/10
  else if region = "South_West" then 6/5
  else if region = "South_East" then 11/10
  else if region = "South_South" then 1
  else 9/10

/-- Modelled from the spec: the regional conflict vulnerability lookup table
`config.vulnerability.conflict_params` (median `p50` values, fatalities),
missing from `src/` like the flood table; entries lie in the valid conflict
range [5, 100] and an unknown region falls back to `North_Central`. -/
def conflict_p50 (region : String) : ℚ :=
  if region = "North_West" then 30
  else if region = "North_East" then 20
  else if region = "North_Central" then 35
  else if region = "South_West" then 60
  else if region = "South_East" then 55
  else if region = "South_South" then 50
  else 35

/-- Embedding of `MLEnhancedVulnerability._get_regional_default`: a
`dict.get` with the `North_Central` entry as default, returning the median. -/
def get_regional_default (region : String) (hazard_type : String) : ℚ :=
  if hazard_type = "flood" then flood_p50 region else conflict_p50 region

/-- Embedding of `MLEnhancedVulnerability.predict_vulnerability` on the
untrained path (`self.trained = False`): the method immediately returns the
regional default and touches no model object, so it is total. -/
def predict_vulnerability_untrained (context : HazardContext)
    (hazard_type : String) : ℚ :=
  get_regional_default context.region hazard_type

end NigeriaIBF

namespace NigeriaIBF

/-- C4 counterexample: at the scenario-1 context (infrastructure 0.35,
poverty 0.45, early-warning 0.55, rural) with flood input 1.5 m, the code
returns 1.5 * 0.95 = 1.425, not 1.5*0.85*0.9*0.95*0.85: infrastructure 0.35
is not below 0.3, early-warning 0.55 is in the neutral band, and poverty
0.45 is not above 0.5, so only the rural multiplier fires. -/
theorem adjust_context_cex :
    adjust_for_context (3/2) ctx0 = 57/40 ∧
    (57/40 : ℚ) ≠ (3/2) * (17/20) * (9/10) * (19/20) * (17/20) := by
  constructor
  · simp only [adjust_for_context, ctx0]
    norm_num
    decide
  · norm_num

/-- C4 amended: for the scenario-1 context only the rural multiplier (0.95)
applies — infrastructure 0.35 and early-warning 0.55 lie in their neutral
bands [0.3, 0.7] and poverty 0.45 does not exceed 0.5 — so the adjusted
half-impact parameter is 1.5 * 0.95 = 1.425. -/
theorem adjust_context_amended :
    adjust_for_context (3/2) ctx0 = (3/2) * (19/20) := by
  simp only [adjust_for_context, ctx0]
  norm_num
  decide

/-- C1: with no trained regressor, `predict_vulnerability` reduces to the
total regional lookup, whose value always lies in the hazard's valid range
(flood [0.05, 2.0], conflict [5, 100]); for a region outside the six known
keys the `North_Central` entry is returned.  Totality of the Lean function
models the absence of exceptions. -/
theorem regional_fallback_range (context : HazardContext) :
    (1/20 ≤ predict_vulnerability_untrained context "flood" ∧
      predict_vulnerability_untrained context "flood" ≤ 2) ∧
    (5 ≤ predict_vulnerability_untrained context "conflict" ∧
      predict_vulnerability_untrained context "conflict" ≤ 100) ∧
    (context.region ∉ ["North_West", "North_East", "North_Central",
        "South_West", "South_East", "South_South"] →
      predict_vulnerability_untrained context "flood" = flood_p50 "North_Central" ∧
      predict_vulnerability_untrained context "conflict" = conflict_p50 "North_Central") := by
  unfold predict_vulnerability_untrained get_regional_default flood_p50 conflict_p50
  refine ⟨?_, ?_, ?_⟩
  · simp only [if_pos rfl]
    split_ifs <;> norm_num
  · simp only [if_neg (by decide : ¬("conflict" = "flood"))]
    split_ifs <;> norm_num
  · intro h
    simp only [List.mem_cons, List.not_mem_nil, or_false] at h
    push_neg at h
    obtain ⟨h1, h2, h3, h4, h5, h6⟩ := h
    simp [h1, h2, h3, h4, h5, h6]

/-- C1 witness: an unknown region string ("Atlantis") exercises the default
branch of the lookup and stays in both valid ranges. -/
theorem regional_fallback_range_witness :
    predict_vulnerability_untrained
        { ctx0 with region := "Atlantis" } "flood" = flood_p50 "North_Central" ∧
    (1/20 : ℚ) ≤ predict_vulnerability_untrained { ctx0 with region := "Atlantis" } "flood" := by
  have h := regional_fallback_range { ctx0 with region := "Atlantis" }
  exact ⟨(h.2.2 (by decide)).1, h.1.1⟩

end NigeriaIBF

namespace NigeriaIBF

/-- Alert-level displacement thresholds: the configuration entry
`config.forecast.displacement_alert_levels` (four numeric breakpoints keyed
`emergency`, `warning`, `advisory`, `watch`); the configuration object is
injected, so the embedding carries it as an explicit record. -/
structure AlertThresholds where
  emergency : ℚ
  warning : ℚ
  advisory : ℚ
  watch : ℚ

/-- Embedding of `AlertManager._determine_alert_level`: the 90th percentile
drives the `emergency` and `warning` tiers, the mean drives `advisory` and
`watch`. -/
def determine_alert_level (th : AlertThresholds) (mean_disp p90_disp : ℚ) : String :=
  if th.emergency ≤ p90_disp then "emergency"
  else if th.warning ≤ p90_disp then "warning"
  else if th.advisory ≤ mean_disp then "advisory"
  else if th.watch ≤ mean_disp then "watch"
  else "none"

/-- Rank of an alert level in the order none < watch < advisory < warning <
emergency. -/
def level_rank (level : String) : ℕ :=
  if level = "emergency" then 4
  else if level = "warning" then 3
  else if level = "advisory" then 2
  else if level = "watch" then 1
  else 0

/-- The two lower tiers as a function of the mean alone (the branch of
`_determine_alert_level` reached when the p90 statistic clears neither the
emergency nor the warning threshold). -/
def mean_tier_level (th : AlertThresholds) (mean_disp : ℚ) : String :=
  if th.advisory ≤ mean_disp then "advisory"
  else if th.watch ≤ mean_disp then "watch"
  else "none"

/-- Embedding of the trigger condition computed in
`AlertManager.generate_alert_decision`: the alert is distributed only when
the level is `warning` or `emergency` and the forecast-metrics confidence
level is `high` or `medium`. -/
def alert_should_trigger (th : AlertThresholds) (mean_disp p90_disp : ℚ)
    (confidence_level : String) : Bool :=
  (determine_alert_level th mean_disp p90_disp = "warning" ∨
    determine_alert_level th mean_disp p90_disp = "emergency") ∧
  (confidence_level = "high" ∨ confidence_level = "medium")

/-- C7: `should_trigger` is true exactly when the determined alert level is
`warning` or `emergency` and the confidence level is `high` or `medium`; in
particular a low-confidence forecast never triggers, whatever its severity. -/
theorem should_trigger_iff (th : AlertThresholds) (mean_disp p90_disp : ℚ)
    (confidence_level : String) :
    (alert_should_trigger th mean_disp p90_disp confidence_level = true ↔
      ((determine_alert_level th mean_disp p90_disp = "warning" ∨
        determine_alert_level th mean_disp p90_disp = "emergency") ∧
       (confidence_level = "high" ∨ confidence_level = "medium"))) ∧
    (confidence_level = "low" →
      alert_should_trigger th mean_disp p90_disp confidence_level = false) := by
  constructor
  · simp [alert_should_trigger]
  · intro hlow
    subst hlow
    simp [alert_should_trigger]

/-- C7 witness: a forecast whose p90 clears the emergency threshold but whose
confidence is `low` is not triggered. -/
theorem should_trigger_iff_witness :
    alert_should_trigger
      { emergency := 50000, warning := 20000, advisory := 5000, watch := 1000 }
      30000 60000 "low" = false := by
  exact (should_trigger_iff
    { emergency := 50000, warning := 20000, advisory := 5000, watch := 1000 }
    30000 60000 "low").2 rfl

/-- C8: holding the mean fixed, the alert level is monotone non-decreasing in
the p90 displacement under none < watch < advisory < warning < emergency, and
the tier structure is as the spec states: the p90 statistic alone selects the
`emergency` and `warning` tiers, and once p90 clears neither of those
thresholds the level is a function of the mean alone (`advisory`/`watch`/
`none`). -/
theorem alert_level_monotone (th : AlertThresholds) (mean_disp p90 p90' : ℚ)
    (h : p90 ≤ p90') :
    level_rank (determine_alert_level th mean_disp p90) ≤
      level_rank (determine_alert_level th mean_disp p90') ∧
    (th.emergency ≤ p90 → determine_alert_level th mean_disp p90 = "emergency") ∧
    (p90 < th.emergency → th.warning ≤ p90 →
      determine_alert_level th mean_disp p90 = "warning") ∧
    (p90 < th.emergency → p90 < th.warning →
      determine_alert_level th mean_disp p90 = mean_tier_level th mean_disp) := by
  have hrank : ∀ m, level_rank (mean_tier_level th m) ≤ 2 := by
    intro m
    unfold mean_tier_level
    split_ifs <;> simp [level_rank]
  have hdet : ∀ p, p < th.emergency → p < th.warning →
      determine_alert_level th mean_disp p = mean_tier_level th mean_disp := by
    intro p h1 h2
    unfold determine_alert_level mean_tier_level
    rw [if_neg (not_le.mpr h1), if_neg (not_le.mpr h2)]
  refine ⟨?_, ?_, ?_, hdet p90⟩
  · by_cases h1 : th.emergency ≤ p90
    · have h1' : th.emergency ≤ p90' := le_trans h1 h
      unfold determine_alert_level
      rw [if_pos h1, if_pos h1']
    · by_cases h2 : th.warning ≤ p90
      · have h2' : th.warning ≤ p90' := le_trans h2 h
        have hw : determine_alert_level th mean_disp p90 = "warning" := by
          unfold determine_alert_level
          rw [if_neg h1, if_pos h2]
        rw [hw]
        unfold determine_alert_level
        by_cases h3 : th.emergency ≤ p90'
        · rw [if_pos h3]
          simp [level_rank]
        · rw [if_neg h3, if_pos h2']
      · rw [hdet p90 (lt_of_not_le h1) (lt_of_not_le h2)]
        by_cases h3 : th.emergency ≤ p90'
        · have he : determine_alert_level th mean_disp p90' = "emergency" := by
            unfold determine_alert_level
            rw [if_pos h3]
          rw [he]
          calc level_rank (mean_tier_level th mean_disp) ≤ 2 := hrank _
            _ ≤ level_rank "emergency" := by simp [level_rank]
        · by_cases h4 : th.warning ≤ p90'
          · have hw : determine_alert_level th mean_disp p90' = "warning" := by
              unfold determine_alert_level
              rw [if_neg h3, if_pos h4]
            rw [hw]
            calc level_rank (mean_tier_level th mean_disp) ≤ 2 := hrank _
              _ ≤ level_rank "warning" := by simp [level_rank]
          · rw [hdet p90' (lt_of_not_le h3) (lt_of_not_le h4)]
  · intro h1
    unfold determine_alert_level
    rw [if_pos h1]
  · intro h1 h2
    unfold determine_alert_level
    rw [if_neg (not_le.mpr h1), if_pos h2]

/-- C8 witness: raising p90 from below the warning threshold to above the
emergency threshold raises the level from `advisory` to `emergency`. -/
theorem alert_level_monotone_witness :
    level_rank (determine_alert_level
      { emergency := 50000, warning := 20000, advisory := 5000, watch := 1000 }
      6000 10000) ≤
    level_rank (determine_alert_level
      { emergency := 50000, warning := 20000, advisory := 5000, watch := 1000 }
      6000 60000) := by
  exact (alert_level_monotone
    { emergency := 50000, warning := 20000, advisory := 5000, watch := 1000 }
    6000 10000 60000 (by norm_num)).1

end NigeriaIBF

namespace NigeriaIBF

/-- Hazard input as seen by `QualityController.validate_inputs`: the event id
list, the flattened nonzero-structure intensity values (`intensity.data`) and
the number of ensemble rows (`intensity.shape[0]`). -/
structure HazardInput where
  event_id : List ℕ
  intensity_data : List ℚ
  ensemble_rows : ℕ

/-- Exposure input as seen by `QualityController.validate_inputs`: the value
column of the GeoDataFrame and whether centroids are assigned. -/
structure ExposureInput where
  values : List ℚ
  has_centroids : Bool

/-- Embedding of `QualityController.validate_inputs`.  The early `return`
statements discard previously accumulated warnings, exactly as in the
source; note that `np.all` on an empty array is true, so an empty
`intensity.data` also warns. -/
def validate_inputs (hazard : HazardInput) (exposure : ExposureInput) :
    Bool × List String :=
  if hazard.event_id.length = 0 then (false, ["Hazard has no events"])
  else
    let w1 : List String :=
      if hazard.intensity_data.all (fun q => q == 0) then
        ["Hazard intensity is all zeros"] else []
    let w2 : List String :=
      if hazard.ensemble_rows < 5 then
        ["Low ensemble size: " ++ toString hazard.ensemble_rows] else []
    if exposure.values.length = 0 then (false, ["Exposure has no data"])
    else if exposure.values.sum = 0 then (false, ["Exposure values sum to zero"])
    else
      let w3 : List String :=
        if exposure.has_centroids then [] else ["Exposure not assigned to centroids"]
      (true, w1 ++ w2 ++ w3)

/-- C9: validation fails exactly on a zero-event hazard, a zero-record
exposure, or a zero value sum; the zero-sum failure carries a message
containing the word "zero"; all-zero intensities and a low ensemble size
only add warnings to a passing result. -/
theorem validate_inputs_spec (hazard : HazardInput) (exposure : ExposureInput) :
    ((validate_inputs hazard exposure).1 = false ↔
      (hazard.event_id = [] ∨ exposure.values = [] ∨ exposure.values.sum = 0)) ∧
    (hazard.event_id ≠ [] → exposure.values ≠ [] → exposure.values.sum = 0 →
      (validate_inputs hazard exposure).2 = ["Exposure values sum to zero"] ∧
      "zero".data <:+: (String.join (validate_inputs hazard exposure).2).data) ∧
    ((validate_inputs hazard exposure).1 = true →
      (hazard.intensity_data.all (fun q => q == 0) = true →
        "Hazard intensity is all zeros" ∈ (validate_inputs hazard exposure).2) ∧
      (hazard.ensemble_rows < 5 →
        ("Low ensemble size: " ++ toString hazard.ensemble_rows) ∈
          (validate_inputs hazard exposure).2)) := by
  unfold validate_inputs
  refine ⟨?_, ?_, ?_⟩
  · constructor
    · intro hf
      by_cases h1 : hazard.event_id.length = 0
      · exact Or.inl (List.length_eq_zero.mp h1)
      · rw [if_neg h1] at hf
        by_cases h2 : exposure.values.length = 0
        · exact Or.inr (Or.inl (List.length_eq_zero.mp h2))
        · rw [if_neg h2] at hf
          by_cases h3 : exposure.values.sum = 0
          · exact Or.inr (Or.inr h3)
          · rw [if_neg h3] at hf
            simp at hf
    · intro hcase
      rcases hcase with h1 | h2 | h3
      · rw [if_pos (by simp [h1])]
      · by_cases h0 : hazard.event_id.length = 0
        · rw [if_pos h0]
        · rw [if_neg h0, if_pos (by simp [h2])]
      · by_cases h0 : hazard.event_id.length = 0
        · rw [if_pos h0]
        · rw [if_neg h0]
          by_cases h2 : exposure.values.length = 0
          · rw [if_pos h2]
          · rw [if_neg h2, if_pos h3]
  · intro h1 h2 h3
    rw [if_neg (by simpa using h1), if_neg (by simpa using h2), if_pos h3]
    refine ⟨rfl, ?_⟩
    exact ⟨"Exposure values sum to ".data, [], by decide⟩
  · intro htrue
    by_cases h1 : hazard.event_id.length = 0
    · rw [if_pos h1] at htrue
      simp at htrue
    · rw [if_neg h1] at htrue ⊢
      by_cases h2 : exposure.values.length = 0
      · rw [if_pos h2] at htrue
        simp at htrue
      · rw [if_neg h2] at htrue ⊢
        by_cases h3 : exposure.values.sum = 0
        · rw [if_pos h3] at htrue
          simp at htrue
        · rw [if_neg h3] at htrue ⊢
          constructor
          · intro hz
            simp [hz]
          · intro hn
            simp [if_pos hn]

/-- C9 witness: a hazard with one event and a two-record exposure whose
values cancel to a zero sum is rejected with the explicit zero message. -/
theorem validate_inputs_spec_witness :
    (validate_inputs
      { event_id := [1], intensity_data := [0], ensemble_rows := 3 }
      { values := [5, -5], has_centroids := true }).1 = false ∧
    (validate_inputs
      { event_id := [1], intensity_data := [0], ensemble_rows := 3 }
      { values := [5, -5], has_centroids := true }).2 =
        ["Exposure values sum to zero"] := by
  have h := validate_inputs_spec
    { event_id := [1], intensity_data := [0], ensemble_rows := 3 }
    { values := [5, -5], has_centroids := true }
  refine ⟨h.1.mpr (Or.inr (Or.inr (by norm_num))), ?_⟩
  exact (h.2.1 (by simp) (by simp) (by norm_num)).1

end NigeriaIBF

namespace NigeriaIBF

/-- Maximum of a rational list (`np.max`); arrays handed to the combiner are
nonempty in practice, the base case 0 only pads totality. -/
def listMax : List ℚ → ℚ
  | [] => 0
  | x :: xs => xs.foldl max x

/-- Mean of a rational list (`np.mean`); division by a zero length follows
the Lean convention `q / 0 = 0`. -/
def listMean (l : List ℚ) : ℚ := l.sum / l.length

/-- Clipping to the displacement ceiling: `np.clip(v, 0, 0.95)`. -/
def clip095 (v : ℚ) : ℚ := min (19/20) (max 0 v)

/-- Elementwise intensity normalisation by the series maximum plus epsilon
(`flood_norm = flood_intensity / (np.max(flood_intensity) + 1e-10)`). -/
def flood_norm_of (intensity : List ℚ) : List ℚ :=
  intensity.map (fun v => v / (listMax intensity + 1/10^10))

/-- Elementwise maximum of the two impact series (`np.maximum`), the base
combination of `_sophisticated_combination` and the whole of `simple_max`. -/
def base_combined_of (flood_impact conflict_impact : List ℚ) : List ℚ :=
  (flood_impact.zip conflict_impact).map (fun p => max p.1 p.2)

/-- Context adjustment of the configured interaction coefficient
`config.vulnerability.flood_conflict_interaction` (carried as the explicit
argument `ib`): x1.2 under weak infrastructure, x1.15 under high poverty. -/
def interaction_adjusted (ib : ℚ) (context : HazardContext) : ℚ :=
  ib * (if context.infrastructure_quality < 3/10 then 6/5 else 1) *
    (if 1/2 < context.poverty_rate then 23/20 else 1)

/-- The `both_present` co-occurrence test: some sample has both normalised
intensities above 0.1 (`np.any((flood_norm > 0.1) & (conflict_norm > 0.1))`). -/
def both_present_any (fn cn : List ℚ) : Bool :=
  (fn.zip cn).any (fun p => decide (1/10 < p.1) && decide (1/10 < p.2))

/-- Compounding step of `_sophisticated_combination`: when any sample
co-occurs, the whole base series is multiplied elementwise by
`1 + (interaction_base - 1) * flood_norm * conflict_norm`. -/
def apply_compounding (base fn cn : List ℚ) (ib2 : ℚ) : List ℚ :=
  if both_present_any fn cn then
    (base.zip (fn.zip cn)).map (fun p => p.1 * (1 + (ib2 - 1) * p.2.1 * p.2.2))
  else base

/-- Flood-to-conflict cascade: when the mean normalised flood intensity
exceeds 0.5, adds `0.15 * mean * (1 - infrastructure) * conflict_impact * 0.3`. -/
def apply_cascade_fc (combined conflict_impact : List ℚ)
    (fn_mean infra : ℚ) : List ℚ :=
  if 1/2 < fn_mean then
    (combined.zip conflict_impact).map
      (fun p => p.1 + (3/20) * fn_mean * (1 - infra) * p.2 * (3/10))
  else combined

/-- Conflict-to-flood cascade: when the mean normalised conflict intensity
exceeds 0.5, adds `0.10 * mean * flood_impact * 0.2`. -/
def apply_cascade_cf (combined flood_impact : List ℚ) (cn_mean : ℚ) : List ℚ :=
  if 1/2 < cn_mean then
    (combined.zip flood_impact).map (fun p => p.1 + (1/10) * cn_mean * p.2 * (1/5))
  else combined

/-- Embedding of `MultiHazardInteraction._sophisticated_combination`
(combined impact array only): normalisation, elementwise max, compounding,
the two cascades, and the final clip to [0, 0.95]. -/
def sophisticated_combination (fi ci f c : List ℚ) (context : HazardContext)
    (ib : ℚ) : List ℚ :=
  let fn := flood_norm_of fi
  let cn := flood_norm_of ci
  (apply_cascade_cf
      (apply_cascade_fc
        (apply_compounding (base_combined_of f c) fn cn
          (interaction_adjusted ib context))
        c (listMean fn) context.infrastructure_quality)
      f (listMean cn)).map clip095

/-- Embedding of the weighted-sum branch of `combine_hazards`: per-sample
weight `flood_intensity / (flood_intensity + conflict_intensity + 1e-10)`. -/
def weighted_sum_combined (fi ci f c : List ℚ) : List ℚ :=
  ((fi.zip ci).zip (f.zip c)).map (fun p =>
    (p.1.1 / (p.1.1 + p.1.2 + 1/10^10)) * p.2.1 +
    (1 - p.1.1 / (p.1.1 + p.1.2 + 1/10^10)) * p.2.2)

/-- Embedding of `MultiHazardInteraction.combine_hazards`: dispatch on the
method string, any unrecognised method falling through to the sophisticated
branch; the second component records the `metrics['method']` tag. -/
def combine_hazards (fi ci f c : List ℚ) (context : HazardContext) (ib : ℚ)
    (method : String) : List ℚ × String :=
  if method = "simple_max" then (base_combined_of f c, "max")
  else if method = "weighted_sum" then (weighted_sum_combined fi ci f c, "weighted")
  else (sophisticated_combination fi ci f c context ib, "sophisticated")

/-- C10: every method string other than the two recognised ones — any
misspelling included — is routed to the sophisticated combination and
returns normally (the embedding is a total function); no method name is
rejected. -/
theorem combine_default_sophisticated (fi ci f c : List ℚ)
    (context : HazardContext) (ib : ℚ) (method : String)
    (h1 : method ≠ "simple_max") (h2 : method ≠ "weighted_sum") :
    combine_hazards fi ci f c context ib method =
      (sophisticated_combination fi ci f c context ib, "sophisticated") := by
  unfold combine_hazards
  rw [if_neg h1, if_neg h2]

/-- C10 witness: a misspelled method name ("sophistcated") silently gets the
sophisticated combination. -/
theorem combine_default_sophisticated_witness :
    combine_hazards [1] [1] [1/2] [1/2] ctx0 (13/10) "sophistcated" =
      (sophisticated_combination [1] [1] [1/2] [1/2] ctx0 (13/10),
        "sophisticated") := by
  exact combine_default_sophisticated [1] [1] [1/2] [1/2] ctx0 (13/10)
    "sophistcated" (by decide) (by decide)

/-- C5 counterexample: `simple_max` performs no clipping, so impact inputs
above 0.95 pass straight through: with both impacts 1.0 the combined array
is [1.0], whose element exceeds 0.95. -/
theorem combine_ceiling_cex :
    (combine_hazards [1] [1] [1] [1] ctx0 (13/10) "simple_max").1 = [1] ∧
    (19/20 : ℚ) < 1 := by
  constructor
  · simp [combine_hazards, base_combined_of]
  · norm_num

/-- C5 amended: the 0.95 ceiling holds for every method — recognised or not —
provided the input impact series themselves respect the ceiling and the
intensity series are nonnegative (the sophisticated branch clips
unconditionally; `simple_max` and `weighted_sum` only average or maximise
their inputs). -/
theorem combine_ceiling_amended (method : String) (fi ci f c : List ℚ)
    (context : HazardContext) (ib : ℚ)
    (hfi : ∀ v ∈ fi, 0 ≤ v) (hci : ∀ v ∈ ci, 0 ≤ v)
    (hf : ∀ v ∈ f, v ≤ 19/20) (hc : ∀ v ∈ c, v ≤ 19/20) :
    ∀ y ∈ (combine_hazards fi ci f c context ib method).1, y ≤ 19/20 := by
  intro y hy
  unfold combine_hazards at hy
  by_cases h1 : method = "simple_max"
  · rw [if_pos h1] at hy
    simp only [base_combined_of, List.mem_map] at hy
    obtain ⟨⟨a, b⟩, hp, rfl⟩ := hy
    obtain ⟨haf, hbc⟩ := List.of_mem_zip hp
    exact max_le (hf a haf) (hc b hbc)
  · rw [if_neg h1] at hy
    by_cases h2 : method = "weighted_sum"
    · rw [if_pos h2] at hy
      simp only [weighted_sum_combined, List.mem_map] at hy
      obtain ⟨⟨⟨i1, i2⟩, ⟨a, b⟩⟩, hp, rfl⟩ := hy
      obtain ⟨hi, hab⟩ := List.of_mem_zip hp
      obtain ⟨hi1, hi2⟩ := List.of_mem_zip hi
      obtain ⟨haf, hbc⟩ := List.of_mem_zip hab
      have h01 : (0:ℚ) < i1 + i2 + 1/10^10 := by
        have := hfi i1 hi1
        have := hci i2 hi2
        norm_num
        linarith
      have hw0 : 0 ≤ i1 / (i1 + i2 + 1/10^10) := by
        exact div_nonneg (hfi i1 hi1) (le_of_lt h01)
      have hw1 : i1 / (i1 + i2 + 1/10^10) ≤ 1 := by
        rw [div_le_one h01]
        have := hci i2 hi2
        norm_num
        linarith
      have ha' := hf a haf
      have hb' := hc b hbc
      nlinarith [mul_nonneg hw0 (sub_nonneg.mpr ha'),
        mul_nonneg (sub_nonneg.mpr hw1) (sub_nonneg.mpr hb')]
    · rw [if_neg h2] at hy
      simp only [sophisticated_combination, List.mem_map] at hy
      obtain ⟨v, hv, rfl⟩ := hy
      exact min_le_left _ _

/-- C5 amended witness: with in-range inputs the simple-max combination of
0.5 and 0.5 stays below the ceiling. -/
theorem combine_ceiling_amended_witness : (1/2 : ℚ) ≤ 19/20 := by
  have hmem : (1/2 : ℚ) ∈ (combine_hazards [1] [1] [1/2] [1/2] ctx0 (13/10)
      "simple_max").1 := by
    simp [combine_hazards, base_combined_of]
  exact combine_ceiling_amended "simple_max" [1] [1] [1/2] [1/2] ctx0 (13/10)
    (by norm_num) (by norm_num) (by norm_num) (by norm_num) (1/2) hmem

end NigeriaIBF

namespace NigeriaIBF

/-- Helper: the running maximum over a constant list is its value. -/
theorem listMax_replicate_succ (m : ℕ) (a : ℚ) :
    listMax (List.replicate (m + 1) a) = a := by
  induction m with
  | zero => simp [listMax]
  | succ k ih =>
    have : List.replicate (k + 1 + 1) a = a :: List.replicate (k + 1) a := rfl
    rw [this]
    unfold listMax
    have hfold : ∀ j : ℕ, (List.replicate j a).foldl max a = a := by
      intro j
      induction j with
      | zero => rfl
      | succ i ihi => simpa [List.replicate_succ, max_self] using ihi
    simpa [List.replicate_succ, max_self] using hfold (k + 1)

/-- Helper: the mean of a nonempty constant list is its value. -/
theorem listMean_replicate_succ (m : ℕ) (x : ℚ) :
    listMean (List.replicate (m + 1) x) = x := by
  unfold listMean
  rw [List.sum_replicate, List.length_replicate, nsmul_eq_mul]
  have h : ((m : ℚ) + 1) ≠ 0 := by positivity
  push_cast
  rw [mul_comm ((m : ℚ) + 1) x, mul_div_assoc, div_self h, mul_one]

/-- Helper: zipping two equal-length constant lists gives a constant list of
pairs. -/
theorem zip_replicate_eq {α β : Type} (n : ℕ) (x : α) (y : β) :
    (List.replicate n x).zip (List.replicate n y) = List.replicate n (x, y) := by
  induction n with
  | zero => rfl
  | succ k ih => simp [List.replicate_succ, ih]

/-- Helper: `any` over a nonempty constant list is the predicate at the
value. -/
theorem any_replicate_succ {α : Type} (m : ℕ) (x : α) (p : α → Bool) :
    (List.replicate (m + 1) x).any p = p x := by
  induction m with
  | zero => simp
  | succ k ih =>
    rw [List.replicate_succ, List.any_cons, ih]
    exact Bool.or_self _

/-- C6: with both impact series constant at 0.4, both intensity series
constant (so each normalised intensity sits at its maximum, clearing the 0.1
co-occurrence gate everywhere) and an interaction
coefficient above 1, the sophisticated combination strictly exceeds 0.4 in
the mean — the value of the elementwise maximum. -/
theorem sophisticated_dominance (n : ℕ) (a b ib : ℚ) (context : HazardContext)
    (hn : 0 < n) (hib : 1 < ib)
    (hinfra1 : context.infrastructure_quality ≤ 1)
    (ha : 1/10 < a / (a + 1/10^10)) (hb : 1/10 < b / (b + 1/10^10)) :
    2/5 < listMean (sophisticated_combination
      (List.replicate n a) (List.replicate n b)
      (List.replicate n (2/5)) (List.replicate n (2/5)) context ib) := by
  obtain ⟨m, rfl⟩ := Nat.exists_eq_succ_of_ne_zero hn.ne'
  set na := a / (a + 1/10^10) with hna_def
  set nb := b / (b + 1/10^10) with hnb_def
  have hna : (0:ℚ) < na := lt_trans (by norm_num) ha
  have hnb : (0:ℚ) < nb := lt_trans (by norm_num) hb
  have hfn : flood_norm_of (List.replicate (m + 1) a) = List.replicate (m + 1) na := by
    rw [flood_norm_of, listMax_replicate_succ, List.map_replicate]
  have hcn : flood_norm_of (List.replicate (m + 1) b) = List.replicate (m + 1) nb := by
    rw [flood_norm_of, listMax_replicate_succ, List.map_replicate]
  have hbase : base_combined_of (List.replicate (m + 1) (2/5))
      (List.replicate (m + 1) (2/5)) = List.replicate (m + 1) (2/5) := by
    rw [base_combined_of, zip_replicate_eq, List.map_replicate, max_self]
  have hib2 : 1 < interaction_adjusted ib context := by
    unfold interaction_adjusted
    split_ifs <;> nlinarith
  set ib2 := interaction_adjusted ib context with hib2_def
  have hany : both_present_any (List.replicate (m + 1) na)
      (List.replicate (m + 1) nb) = true := by
    rw [both_present_any, zip_replicate_eq, any_replicate_succ]
    simp only [Bool.and_eq_true, decide_eq_true_eq]
    exact ⟨ha, hb⟩
  set cf := 1 + (ib2 - 1) * na * nb with hcf_def
  have hcf : 1 < cf := by
    have : 0 < (ib2 - 1) * na * nb :=
      mul_pos (mul_pos (by linarith) hna) hnb
    rw [hcf_def]
    linarith
  have hcomp : apply_compounding (List.replicate (m + 1) (2/5))
      (List.replicate (m + 1) na) (List.replicate (m + 1) nb) ib2 =
      List.replicate (m + 1) (2/5 * cf) := by
    rw [apply_compounding, if_pos hany, zip_replicate_eq, zip_replicate_eq,
      List.map_replicate]
  have hv1 : (2:ℚ)/5 < 2/5 * cf := by nlinarith
  have hmean_na : listMean (List.replicate (m + 1) na) = na :=
    listMean_replicate_succ m na
  have hmean_nb : listMean (List.replicate (m + 1) nb) = nb :=
    listMean_replicate_succ m nb
  have hstep2 : ∃ v2 : ℚ, apply_cascade_fc (List.replicate (m + 1) (2/5 * cf))
      (List.replicate (m + 1) (2/5)) (listMean (List.replicate (m + 1) na))
      context.infrastructure_quality = List.replicate (m + 1) v2 ∧ 2/5 < v2 := by
    rw [hmean_na, apply_cascade_fc]
    by_cases hg : 1/2 < na
    · refine ⟨2/5 * cf + 3/20 * na * (1 - context.infrastructure_quality) *
        (2/5) * (3/10), ?_, ?_⟩
      · rw [if_pos hg, zip_replicate_eq, List.map_replicate]
      · have hterm : (0:ℚ) ≤ 3/20 * na * (1 - context.infrastructure_quality) *
            (2/5) * (3/10) := by
          have h1 : (0:ℚ) ≤ 1 - context.infrastructure_quality := by linarith
          have := mul_nonneg (mul_nonneg (mul_nonneg
            (mul_nonneg (by norm_num : (0:ℚ) ≤ 3/20) hna.le) h1)
            (by norm_num : (0:ℚ) ≤ 2/5)) (by norm_num : (0:ℚ) ≤ 3/10)
          linarith [this]
        linarith
    · exact ⟨2/5 * cf, by rw [if_neg hg], hv1⟩
  obtain ⟨v2, hv2eq, hv2⟩ := hstep2
  have hstep3 : ∃ v3 : ℚ, apply_cascade_cf (List.replicate (m + 1) v2)
      (List.replicate (m + 1) (2/5)) (listMean (List.replicate (m + 1) nb)) =
      List.replicate (m + 1) v3 ∧ 2/5 < v3 := by
    rw [hmean_nb, apply_cascade_cf]
    by_cases hg : 1/2 < nb
    · refine ⟨v2 + 1/10 * nb * (2/5) * (1/5), ?_, ?_⟩
      · rw [if_pos hg, zip_replicate_eq, List.map_replicate]
      · have hterm : (0:ℚ) ≤ 1/10 * nb * (2/5) * (1/5) :=
          mul_nonneg (mul_nonneg (mul_nonneg
            (by norm_num : (0:ℚ) ≤ 1/10) hnb.le)
            (by norm_num : (0:ℚ) ≤ 2/5))
            (by norm_num : (0:ℚ) ≤ 1/5)
        linarith
    · exact ⟨v2, by rw [if_neg hg], hv2⟩
  obtain ⟨v3, hv3eq, hv3⟩ := hstep3
  have hfinal : sophisticated_combination (List.replicate (m + 1) a)
      (List.replicate (m + 1) b) (List.replicate (m + 1) (2/5))
      (List.replicate (m + 1) (2/5)) context ib =
      List.replicate (m + 1) (clip095 v3) := by
    simp only [sophisticated_combination]
    rw [hfn, hcn, hbase, ← hib2_def, hcomp, hv2eq, hv3eq, List.map_replicate]
  rw [hfinal, listMean_replicate_succ]
  unfold clip095
  have h1 : (2:ℚ)/5 < max 0 v3 := lt_of_lt_of_le hv3 (le_max_right 0 v3)
  exact lt_min (by norm_num) h1

/-- C6 witness: two samples, both intensities 1, impacts 0.4, interaction
coefficient 1.3, a mid-range context: the mean combined impact strictly
exceeds 0.4. -/
theorem sophisticated_dominance_witness :
    2/5 < listMean (sophisticated_combination
      (List.replicate 2 1) (List.replicate 2 1)
      (List.replicate 2 (2/5)) (List.replicate 2 (2/5)) ctx0 (13/10)) := by
  exact sophisticated_dominance 2 1 1 (13/10) ctx0 (by norm_num) (by norm_num)
    (by norm_num [ctx0]) (by norm_num) (by norm_num)

end NigeriaIBF

namespace NigeriaIBF

/-- Properties of the real exponential that the impact-curve code relies on:
monotonicity, positivity, being at most 1 on nonpositive arguments, and two
numeric bounds (exp(-5) is about 0.0067 and exp(-0.05) about 0.9512) that
fix the size of the saturation-boundary jump.  All fields hold for the real
`exp`; the embedding quantifies over any function satisfying them. -/
structure ExpLike (e : ℚ → ℚ) : Prop where
  mono : ∀ ⦃x y : ℚ⦄, x ≤ y → e x ≤ e y
  pos : ∀ x : ℚ, 0 < e x
  le_one_of_nonpos : ∀ x : ℚ, x ≤ 0 → e x ≤ 1
  at_neg_five : e (-5) ≤ 7/1000
  at_neg_twentieth : 19/20 ≤ e (-(1/20))

/-- A concrete rational `ExpLike` function: constant 1/1000 below -2, linear
up to (0, 1), then 1 + x.  Used to instantiate counterexamples and
witnesses. -/
def eRat (x : ℚ) : ℚ :=
  if x ≤ -2 then 1/1000 else if x ≤ 0 then 1 + (999/2000) * x else 1 + x

/-- The function `eRat` has all the recorded properties of the real
exponential. -/
theorem expLike_eRat : ExpLike eRat := by
  constructor
  · intro x y hxy
    unfold eRat
    split_ifs <;> linarith
  · intro x
    unfold eRat
    split_ifs <;> linarith
  · intro x hx
    unfold eRat
    split_ifs <;> linarith
  · unfold eRat
    norm_num
  · unfold eRat
    norm_num

/-- Number of grid points of the intensity grid: `np.arange(0, 6, 0.05)` has
120 points for flood, `np.arange(0, 250, 2)` has 125 for conflict. -/
def gridSizeOf (hazard_type : String) : ℕ :=
  if hazard_type = "flood" then 120 else 125

/-- The k-th grid intensity: 0.05-spaced flood depths, 2-spaced conflict
fatality counts. -/
def gridPointOf (hazard_type : String) (k : ℕ) : ℚ :=
  if hazard_type = "flood" then k * (1/20) else 2 * k

/-- The grid maximum `intensity.max()` (5.95 m for flood, 248 for
conflict). -/
def gridMaxOf (hazard_type : String) : ℚ :=
  gridPointOf hazard_type (gridSizeOf hazard_type - 1)

/-- Sigmoid steepness: 5 for flood, 3 for conflict. -/
def steepnessOf (hazard_type : String) : ℚ :=
  if hazard_type = "flood" then 5 else 3

/-- The base logistic sigmoid of `_create_impact_curve`:
`1 / (1 + exp(-steepness * (x - intensity_half) / intensity_half))`. -/
def sigma_base (e : ℚ → ℚ) (steep half x : ℚ) : ℚ :=
  1 / (1 + e (-(steep * (x - half) / half)))

/-- The low-intensity ramp multiplier of `_create_impact_curve`:
`0.5 + 0.5 * ((x - threshold) / (intensity_half * 0.5 - threshold))`. -/
def ramp_factor (threshold half x : ℚ) : ℚ :=
  1/2 + 1/2 * ((x - threshold) / (half / 2 - threshold))

/-- The high-intensity saturation override of `_create_impact_curve`:
`0.85 + 0.14 * (1 - exp(-(x - 2*intensity_half) / intensity_half))`. -/
def saturation_value (e : ℚ → ℚ) (half x : ℚ) : ℚ :=
  17/20 + (7/50) * (1 - e (-((x - half * 2) / half)))

/-- Pointwise value of `_create_impact_curve` before the early-warning
scaling and the final clip: base sigmoid, threshold zeroing, low-intensity
ramp, then the high-intensity saturation override, in the source's
assignment order (the saturation mask is applied last and therefore also
overrides the threshold zeroing). -/
def impact_curve_raw (e : ℚ → ℚ) (steep threshold half x : ℚ) : ℚ :=
  let s1 := if x < threshold then 0 else sigma_base e steep half x
  let s2 := if threshold ≤ x ∧ x < half / 2 then
      s1 * ramp_factor threshold half x else s1
  if half * 2 < x then saturation_value e half x else s2

/-- The early-warning curve scaling of `_create_impact_curve`:
`0.85 + 0.15 * (x / intensity.max())` when coverage exceeds 0.7. -/
def ew_scale (context : HazardContext) (gmax x : ℚ) : ℚ :=
  if 7/10 < context.early_warning_coverage then 17/20 + (3/20) * (x / gmax) else 1

/-- Pointwise value of the final `mdd` array returned by
`AdaptiveImpactFunction._create_impact_curve`: raw regimes, early-warning
scaling, clip to [0, 0.95]. -/
def impact_curve_point (e : ℚ → ℚ) (hazard_type : String)
    (context : HazardContext) (threshold half x : ℚ) : ℚ :=
  clip095 (impact_curve_raw e (steepnessOf hazard_type) threshold half x *
    ew_scale context (gridMaxOf hazard_type) x)

/-- The full `mdd` array of `_create_impact_curve` over the intensity grid. -/
def create_impact_curve (e : ℚ → ℚ) (hazard_type : String)
    (context : HazardContext) (threshold half : ℚ) : List ℚ :=
  (List.range (gridSizeOf hazard_type)).map
    (fun k => impact_curve_point e hazard_type context threshold half
      (gridPointOf hazard_type k))

/-- The array entries of `create_impact_curve` are exactly the pointwise
values at the grid points. -/
theorem create_impact_curve_get (e : ℚ → ℚ) (hazard_type : String)
    (context : HazardContext) (threshold half : ℚ) (k : ℕ)
    (hk : k < gridSizeOf hazard_type) :
    (create_impact_curve e hazard_type context threshold half).get? k =
      some (impact_curve_point e hazard_type context threshold half
        (gridPointOf hazard_type k)) := by
  unfold create_impact_curve
  rw [List.get?_eq_getElem?, List.getElem?_map, List.getElem?_range hk]
  rfl

end NigeriaIBF

namespace NigeriaIBF

/-- C2 amended: every grid intensity strictly below the threshold carries
displacement fraction 0 provided the threshold does not exceed twice the
adjusted half-impact parameter (equivalently, the saturation regime starts
at or above the threshold); without that proviso the saturation override,
applied after the threshold zeroing, re-introduces nonzero values below the
threshold. -/
theorem threshold_zeroing_amended (e : ℚ → ℚ) (hazard_type : String)
    (context : HazardContext) (threshold half : ℚ) (k : ℕ)
    (hk : k < gridSizeOf hazard_type)
    (hth : threshold ≤ half * 2)
    (hx : gridPointOf hazard_type k < threshold) :
    impact_curve_point e hazard_type context threshold half
      (gridPointOf hazard_type k) = 0 := by
  set x := gridPointOf hazard_type k with hxdef
  unfold impact_curve_point impact_curve_raw
  rw [if_neg (by linarith : ¬ half * 2 < x)]
  rw [if_neg (fun hc => absurd hc.1 (not_le.mpr hx))]
  rw [if_pos hx]
  rw [zero_mul]
  unfold clip095
  rw [max_self, min_eq_right (by norm_num : (0:ℚ) ≤ 19/20)]

/-- C2 amended witness: flood grid point 2 (0.10 m) lies below the 0.3 m
threshold and the curve vanishes there when the threshold is below twice the
half-impact parameter (here 1 m). -/
theorem threshold_zeroing_amended_witness :
    impact_curve_point eRat "flood" ctx0 (3/10) 1 (gridPointOf "flood" 2) = 0 := by
  exact threshold_zeroing_amended eRat "flood" ctx0 (3/10) 1 2
    (by simp [gridSizeOf]) (by norm_num) (by norm_num [gridPointOf])

/-- C2 counterexample: with threshold 0.3 and adjusted half-impact 0.1 (a
value reachable after the multiplicative context/compounding reductions of a
small base vulnerability), the flood grid point 0.25 m lies strictly below
the threshold yet gets the nonzero saturation value 0.85 + 0.14*(1-e(-1/2)),
because the saturation mask `intensity > 2*half` is applied after the
threshold zeroing; `eRat` carries the recorded properties of exp. -/
theorem threshold_zeroing_cex :
    ExpLike eRat ∧
    gridPointOf "flood" 5 < 3/10 ∧
    impact_curve_point eRat "flood" ctx0 (3/10) (1/10)
      (gridPointOf "flood" 5) ≠ 0 := by
  refine ⟨expLike_eRat, by norm_num [gridPointOf], ?_⟩
  unfold impact_curve_point impact_curve_raw saturation_value ew_scale clip095
  norm_num [gridPointOf, gridMaxOf, gridSizeOf, steepnessOf, eRat, ctx0]

end NigeriaIBF

namespace NigeriaIBF

/-- Helper: the base sigmoid is nonnegative for any `ExpLike` exponential. -/
theorem sigma_base_nonneg (e : ℚ → ℚ) (he : ExpLike e) (steep half x : ℚ) :
    0 ≤ sigma_base e steep half x := by
  unfold sigma_base
  have h := he.pos (-(steep * (x - half) / half))
  positivity

/-- Helper: the base sigmoid is at most 1 for any `ExpLike` exponential. -/
theorem sigma_base_le_one (e : ℚ → ℚ) (he : ExpLike e) (steep half x : ℚ) :
    sigma_base e steep half x ≤ 1 := by
  unfold sigma_base
  have h := he.pos (-(steep * (x - half) / half))
  rw [div_le_one (by linarith)]
  linarith

/-- Helper: the base sigmoid is non-decreasing in intensity when steepness
and the half-impact parameter are positive. -/
theorem sigma_base_mono (e : ℚ → ℚ) (he : ExpLike e) (steep half x1 x2 : ℚ)
    (hsteep : 0 < steep) (hhalf : 0 < half) (h12 : x1 ≤ x2) :
    sigma_base e steep half x1 ≤ sigma_base e steep half x2 := by
  unfold sigma_base
  have harg : steep * (x1 - half) / half ≤ steep * (x2 - half) / half := by
    gcongr
  have hexp : e (-(steep * (x2 - half) / half)) ≤
      e (-(steep * (x1 - half) / half)) := he.mono (by linarith)
  have hpos2 : 0 < 1 + e (-(steep * (x2 - half) / half)) := by
    have := he.pos (-(steep * (x2 - half) / half))
    linarith
  exact one_div_le_one_div_of_le hpos2 (by linarith)

/-- Helper: the saturation branch is non-decreasing in intensity. -/
theorem saturation_mono (e : ℚ → ℚ) (he : ExpLike e) (half x1 x2 : ℚ)
    (hhalf : 0 < half) (h12 : x1 ≤ x2) :
    saturation_value e half x1 ≤ saturation_value e half x2 := by
  unfold saturation_value
  have harg : (x1 - half * 2) / half ≤ (x2 - half * 2) / half := by
    gcongr
  have hexp : e (-((x2 - half * 2) / half)) ≤
      e (-((x1 - half * 2) / half)) := he.mono (by linarith)
  linarith

/-- Helper: the saturation branch is nonnegative past the saturation
boundary. -/
theorem saturation_nonneg (e : ℚ → ℚ) (he : ExpLike e) (half x : ℚ)
    (hhalf : 0 < half) (hx : half * 2 ≤ x) :
    0 ≤ saturation_value e half x := by
  unfold saturation_value
  have harg : -((x - half * 2) / half) ≤ 0 := by
    have : 0 ≤ (x - half * 2) / half := div_nonneg (by linarith) hhalf.le
    linarith
  have := he.le_one_of_nonpos _ harg
  linarith

/-- Helper: above the threshold and at or below the saturation boundary the
raw curve takes the mid-regime form (sigmoid, ramped on the low-intensity
band). -/
theorem impact_raw_mid (e : ℚ → ℚ) (steep threshold half x : ℚ)
    (h1 : threshold ≤ x) (h2 : ¬ half * 2 < x) :
    impact_curve_raw e steep threshold half x =
      if threshold ≤ x ∧ x < half / 2 then
        sigma_base e steep half x * ramp_factor threshold half x
      else sigma_base e steep half x := by
  unfold impact_curve_raw
  rw [if_neg h2]
  by_cases h3 : threshold ≤ x ∧ x < half / 2
  · rw [if_pos h3, if_pos h3, if_neg (not_lt.mpr h1)]
  · rw [if_neg h3, if_neg h3, if_neg (not_lt.mpr h1)]

/-- Helper: past the saturation boundary the raw curve takes the saturation
value. -/
theorem impact_raw_high (e : ℚ → ℚ) (steep threshold half x : ℚ)
    (h : half * 2 < x) :
    impact_curve_raw e steep threshold half x = saturation_value e half x := by
  unfold impact_curve_raw
  rw [if_pos h]

/-- Helper: the raw curve is nonnegative at or above the threshold. -/
theorem impact_raw_nonneg (e : ℚ → ℚ) (he : ExpLike e)
    (steep threshold half x : ℚ) (hhalf : 0 < half) (hth : threshold ≤ x) :
    0 ≤ impact_curve_raw e steep threshold half x := by
  by_cases hh : half * 2 < x
  · rw [impact_raw_high e steep threshold half x hh]
    exact saturation_nonneg e he half x hhalf hh.le
  · rw [impact_raw_mid e steep threshold half x hth hh]
    by_cases h3 : threshold ≤ x ∧ x < half / 2
    · rw [if_pos h3]
      have hd : 0 < half / 2 - threshold := by
        obtain ⟨h3a, h3b⟩ := h3
        linarith
      have hr : 0 ≤ ramp_factor threshold half x := by
        unfold ramp_factor
        have : 0 ≤ (x - threshold) / (half / 2 - threshold) :=
          div_nonneg (by linarith) hd.le
        linarith
      exact mul_nonneg (sigma_base_nonneg e he steep half x) hr
    · rw [if_neg h3]
      exact sigma_base_nonneg e he steep half x

/-- Helper: the raw curve is non-decreasing between two intensities at or
above the threshold that do not straddle the saturation boundary
`2 * half`. -/
theorem impact_raw_mono (e : ℚ → ℚ) (he : ExpLike e)
    (steep threshold half x1 x2 : ℚ) (hsteep : 0 < steep) (hhalf : 0 < half)
    (h12 : x1 ≤ x2) (hth : threshold ≤ x1)
    (hside : x2 ≤ half * 2 ∨ half * 2 < x1) :
    impact_curve_raw e steep threshold half x1 ≤
      impact_curve_raw e steep threshold half x2 := by
  rcases hside with hA | hB
  · have hn1 : ¬ half * 2 < x1 := not_lt.mpr (le_trans h12 hA)
    have hn2 : ¬ half * 2 < x2 := not_lt.mpr hA
    rw [impact_raw_mid e steep threshold half x1 hth hn1,
      impact_raw_mid e steep threshold half x2 (le_trans hth h12) hn2]
    have hsig := sigma_base_mono e he steep half x1 x2 hsteep hhalf h12
    have hsig1 := sigma_base_nonneg e he steep half x1
    have hsig2 := sigma_base_nonneg e he steep half x2
    by_cases hl1 : x1 < half / 2
    · rw [if_pos ⟨hth, hl1⟩]
      have hd : 0 < half / 2 - threshold := by linarith
      have hr1 : 0 ≤ ramp_factor threshold half x1 := by
        unfold ramp_factor
        have : 0 ≤ (x1 - threshold) / (half / 2 - threshold) :=
          div_nonneg (by linarith) hd.le
        linarith
      by_cases hl2 : x2 < half / 2
      · rw [if_pos ⟨le_trans hth h12, hl2⟩]
        have hr12 : ramp_factor threshold half x1 ≤ ramp_factor threshold half x2 := by
          unfold ramp_factor
          have : (x1 - threshold) / (half / 2 - threshold) ≤
              (x2 - threshold) / (half / 2 - threshold) := by
            gcongr
          linarith
        exact mul_le_mul hsig hr12 hr1 hsig2
      · rw [if_neg (fun hc => hl2 hc.2)]
        have hr1le : ramp_factor threshold half x1 ≤ 1 := by
          unfold ramp_factor
          have : (x1 - threshold) / (half / 2 - threshold) < 1 := by
            rw [div_lt_one hd]
            linarith
          linarith
        calc sigma_base e steep half x1 * ramp_factor threshold half x1 ≤
            sigma_base e steep half x1 * 1 := by
              exact mul_le_mul_of_nonneg_left hr1le hsig1
          _ = sigma_base e steep half x1 := mul_one _
          _ ≤ sigma_base e steep half x2 := hsig
    · rw [if_neg (fun hc => hl1 hc.2)]
      have hl2 : ¬ x2 < half / 2 := by
        intro hc
        exact hl1 (lt_of_le_of_lt h12 hc)
      rw [if_neg (fun hc => hl2 hc.2)]
      exact hsig
  · have hB2 : half * 2 < x2 := lt_of_lt_of_le hB h12
    rw [impact_raw_high e steep threshold half x1 hB,
      impact_raw_high e steep threshold half x2 hB2]
    exact saturation_mono e he half x1 x2 hhalf h12

end NigeriaIBF

namespace NigeriaIBF

/-- Helper: clipping to [0, 0.95] is monotone. -/
theorem clip095_mono {v w : ℚ} (h : v ≤ w) : clip095 v ≤ clip095 w :=
  min_le_min le_rfl (max_le_max le_rfl h)

/-- C3 amended: for any `ExpLike` exponential, fixed context and positive
adjusted half-impact parameter, the displacement-fraction curve is
non-decreasing between any two grid intensities at or above the threshold
that lie on the same side of the saturation boundary `2 * half`; across that
boundary the curve is not monotone — the clipped sigmoid (up to 0.95) drops
to the saturation branch restarting near 0.85, a downward discontinuity of
about 0.09, well above the claimed 1e-2 tolerance. -/
theorem curve_monotone_amended (e : ℚ → ℚ) (he : ExpLike e)
    (hazard_type : String) (context : HazardContext) (threshold half : ℚ)
    (hhalf : 0 < half) (k1 k2 : ℕ) (hk2 : k2 < gridSizeOf hazard_type)
    (hk : k1 ≤ k2)
    (hth : threshold ≤ gridPointOf hazard_type k1)
    (hside : gridPointOf hazard_type k2 ≤ half * 2 ∨
      half * 2 < gridPointOf hazard_type k1) :
    impact_curve_point e hazard_type context threshold half
        (gridPointOf hazard_type k1) ≤
      impact_curve_point e hazard_type context threshold half
        (gridPointOf hazard_type k2) := by
  have hsteep : 0 < steepnessOf hazard_type := by
    unfold steepnessOf
    split_ifs <;> norm_num
  have hx12 : gridPointOf hazard_type k1 ≤ gridPointOf hazard_type k2 := by
    unfold gridPointOf
    have hc : (k1:ℚ) ≤ (k2:ℚ) := Nat.cast_le.mpr hk
    split_ifs <;> linarith
  have hx1nn : 0 ≤ gridPointOf hazard_type k1 := by
    unfold gridPointOf
    split_ifs <;> positivity
  have hgmax : 0 < gridMaxOf hazard_type := by
    unfold gridMaxOf gridPointOf gridSizeOf
    split_ifs <;> norm_num
  have hraw := impact_raw_mono e he (steepnessOf hazard_type) threshold half
    (gridPointOf hazard_type k1) (gridPointOf hazard_type k2)
    hsteep hhalf hx12 hth hside
  have hraw2 := impact_raw_nonneg e he (steepnessOf hazard_type) threshold half
    (gridPointOf hazard_type k2) hhalf (le_trans hth hx12)
  have hscale1 : 0 ≤ ew_scale context (gridMaxOf hazard_type)
      (gridPointOf hazard_type k1) := by
    unfold ew_scale
    split_ifs with hew
    · have : 0 ≤ gridPointOf hazard_type k1 / gridMaxOf hazard_type :=
        div_nonneg hx1nn hgmax.le
      linarith
    · norm_num
  have hscale12 : ew_scale context (gridMaxOf hazard_type)
      (gridPointOf hazard_type k1) ≤
      ew_scale context (gridMaxOf hazard_type) (gridPointOf hazard_type k2) := by
    unfold ew_scale
    split_ifs with hew
    · have : gridPointOf hazard_type k1 / gridMaxOf hazard_type ≤
          gridPointOf hazard_type k2 / gridMaxOf hazard_type := by
        gcongr
      linarith
    · exact le_rfl
  unfold impact_curve_point
  exact clip095_mono (mul_le_mul hraw hscale12 hscale1 hraw2)

/-- C3 amended witness: on the flood grid with threshold 0.3 m and adjusted
half-impact 1 m, the curve does not decrease from 0.5 m to 1.0 m (both on
the sigmoid side of the saturation boundary). -/
theorem curve_monotone_amended_witness :
    impact_curve_point eRat "flood" ctx0 (3/10) 1 (gridPointOf "flood" 10) ≤
      impact_curve_point eRat "flood" ctx0 (3/10) 1 (gridPointOf "flood" 20) := by
  exact curve_monotone_amended eRat expLike_eRat "flood" ctx0 (3/10) 1
    (by norm_num) 10 20 (by simp [gridSizeOf]) (by norm_num)
    (by norm_num [gridPointOf]) (Or.inl (by norm_num [gridPointOf]))

/-- C3 counterexample: with threshold 0.3 m and adjusted half-impact 1 m on
the flood grid, between the adjacent grid points 2.00 m and 2.05 m — both at
or above the threshold — the curve drops from the clipped sigmoid value 0.95
to the restarted saturation value about 0.853, a downward step larger than
1e-2, for the `ExpLike` function `eRat` whose recorded bounds the real
exponential also satisfies. -/
theorem curve_monotone_cex :
    ExpLike eRat ∧
    (3/10 : ℚ) ≤ gridPointOf "flood" 40 ∧
    gridPointOf "flood" 40 ≤ gridPointOf "flood" 41 ∧
    impact_curve_point eRat "flood" ctx0 (3/10) 1 (gridPointOf "flood" 41)
        + 1/100 <
      impact_curve_point eRat "flood" ctx0 (3/10) 1 (gridPointOf "flood" 40) := by
  refine ⟨expLike_eRat, by norm_num [gridPointOf], by norm_num [gridPointOf], ?_⟩
  unfold impact_curve_point impact_curve_raw sigma_base saturation_value
    ramp_factor ew_scale clip095
  norm_num [gridPointOf, gridMaxOf, gridSizeOf, steepnessOf, eRat, ctx0]

end NigeriaIBF
